import Mathlib

/-!
Shallow embedding of the blog-post service of this repository:
the Pydantic validation schemas (schemas.py: PostCreateSchema, PostUpdateSchema),
the service operations (services/post_service.py: create_post, get_post_by_id,
update_post, delete_post, get_posts_paginated), the mutation wrapper of main.py,
and the table constraints of models.py.

The record store is modelled as a list of rows; the store-assigned id and
timestamp of an insert are explicit parameters.  Python `str.strip` is
modelled by `pyStrip`; the "field omitted vs field supplied" distinction
made by Pydantic `exclude_unset` is modelled by the inductive `FieldInput`.
-/

/-- Whitespace characters stripped by Python `str.strip` (ASCII range). -/
def pyIsSpace (c : Char) : Bool :=
  c = ' ' || c = '\t' || c = '\n' || c = '\r' || c = '\x0B' || c = '\x0C'

/-- Python `str.strip`: remove leading and trailing whitespace. -/
def pyStrip (s : String) : String :=
  ⟨((s.data.dropWhile pyIsSpace).reverse.dropWhile pyIsSpace).reverse⟩

/-- A persisted Post row (models.py).  All three text columns are NOT NULL. -/
structure Post where
  id : Nat
  title : String
  content : String
  author : String
  time_created : Int
deriving DecidableEq

/-- The in-memory ORM view of a row while an update is applied: `setattr`
can place `None` into a field, which only the commit rejects. -/
structure ORMPost where
  id : Nat
  title : Option String
  content : Option String
  author : Option String
  time_created : Int
deriving DecidableEq

def Post.toORM (p : Post) : ORMPost :=
  ⟨p.id, some p.title, some p.content, some p.author, p.time_created⟩

/-- PostCreateSchema field handling: Field(min_length=1, max_length=maxLen)
runs first, then the field validator rejects blank-after-strip values and
returns the stripped value. -/
def validateCreateField (maxLen : Nat) (v : String) : Option String :=
  if v.length < 1 then none
  else if maxLen < v.length then none
  else if pyStrip v = "" then none
  else some (pyStrip v)

/-- PostCreateSchema(title, content, author): all three fields must validate
(bounds 200 / 10000 / 100). -/
def postCreateSchema (title content author : String) :
    Option (String × String × String) := do
  let t ← validateCreateField 200 title
  let c ← validateCreateField 10000 content
  let a ← validateCreateField 100 author
  return (t, c, a)

/-- One field of an update payload: omitted, explicitly null, or a string. -/
inductive FieldInput where
  | unset : FieldInput
  | null : FieldInput
  | str : String → FieldInput
deriving DecidableEq

/-- PostUpdateSchema field handling: an omitted field and an explicit None
both pass; a supplied string gets the length bounds, the blank check, and is
stripped (`return v.strip() if v else v`). -/
def validateUpdateField (maxLen : Nat) (v : FieldInput) : Option FieldInput :=
  match v with
  | .unset => some .unset
  | .null => some .null
  | .str s =>
    if s.length < 1 then none
    else if maxLen < s.length then none
    else if pyStrip s = "" then none
    else some (.str (pyStrip s))

/-- The update payload: which of the three fields were supplied, and how. -/
structure UpdateData where
  title : FieldInput
  content : FieldInput
  author : FieldInput
deriving DecidableEq

/-- PostUpdateSchema(**update_data): every supplied field must validate. -/
def postUpdateSchema (d : UpdateData) : Option UpdateData := do
  let t ← validateUpdateField 200 d.title
  let c ← validateUpdateField 10000 d.content
  let a ← validateUpdateField 100 d.author
  return ⟨t, c, a⟩

/-- Contribution of one field to `model_dump(exclude_unset=True)`. -/
def dumpField (name : String) (v : FieldInput) : List (String × Option String) :=
  match v with
  | .unset => []
  | .null => [(name, none)]
  | .str s => [(name, some s)]

/-- `model_dump(exclude_unset=True)`: the explicitly supplied fields, in
field-declaration order. -/
def modelDumpExcludeUnset (d : UpdateData) : List (String × Option String) :=
  dumpField "title" d.title ++ dumpField "content" d.content ++
    dumpField "author" d.author

/-- `setattr(db_post, key, value)` for one dumped key/value pair. -/
def setAttr (r : ORMPost) (kv : String × Option String) : ORMPost :=
  if kv.1 = "title" then { r with title := kv.2 }
  else if kv.1 = "content" then { r with content := kv.2 }
  else if kv.1 = "author" then { r with author := kv.2 }
  else r

/-- Committing a row enforces the table constraints of models.py: the three
NOT NULL columns and the `length(trim(x)) > 0` check constraints. -/
def commitRow (r : ORMPost) : Option Post :=
  match r.title, r.content, r.author with
  | some t, some c, some a =>
    if pyStrip t = "" || pyStrip c = "" || pyStrip a = "" then none
    else some ⟨r.id, t, c, a, r.time_created⟩
  | _, _, _ => none

/-- `query(Post).filter(Post.id == post_id).first()`. -/
def get_post_by_id (store : List Post) (post_id : Nat) : Option Post :=
  store.find? (fun p => p.id == post_id)

/-- Outcome of `PostService.update_post`, as the mutation layer sees it. -/
inductive UpdateResult where
  | notFound : String → UpdateResult
  | validationError : UpdateResult
  | storeError : UpdateResult
  | ok : Post → UpdateResult
deriving DecidableEq

/-- `PostService.update_post`: look up, validate, dump with exclude_unset,
apply the setattr loop, commit.  Returns the store after the call together
with the outcome; every failing branch leaves the store as it was. -/
def update_post (store : List Post) (post_id : Nat) (d : UpdateData) :
    List Post × UpdateResult :=
  match get_post_by_id store post_id with
  | none => (store, .notFound ("Post with id " ++ toString post_id ++ " not found"))
  | some db_post =>
    match postUpdateSchema d with
    | none => (store, .validationError)
    | some validated =>
      let fields := modelDumpExcludeUnset validated
      let r := fields.foldl setAttr db_post.toORM
      match commitRow r with
      | none => (store, .storeError)
      | some p => (store.map (fun q => if q.id = post_id then p else q), .ok p)

/-- `PostService.delete_post`: look up, raise ValueError if absent, else
remove that row and commit. -/
def delete_post (store : List Post) (post_id : Nat) :
    List Post × Except String Bool :=
  match get_post_by_id store post_id with
  | none => (store, .error ("Post with id " ++ toString post_id ++ " not found"))
  | some _ => (store.eraseP (fun q => q.id == post_id), .ok true)

/-- `PostService.create_post` on already-validated data: insert a row with
the store-assigned id and timestamp. -/
def create_post (store : List Post) (new_id : Nat) (now : Int)
    (pd : String × String × String) : List Post × Post :=
  let p : Post := ⟨new_id, pd.1, pd.2.1, pd.2.2, now⟩
  (store ++ [p], p)

/-- `CreateNewPost.mutate` (main.py): run PostCreateSchema first; on a
validation error return ok=False without touching the store, otherwise
insert through the service. -/
def createNewPost (store : List Post) (new_id : Nat) (now : Int)
    (title content author : String) : List Post × Option Post :=
  match postCreateSchema title content author with
  | none => (store, none)
  | some pd =>
    let res := create_post store new_id now pd
    (res.1, some res.2)

/-- `ORDER BY id DESC`, as a relation on rows. -/
def idDescOrder (a b : Post) : Prop := b.id ≤ a.id

instance : DecidableRel idDescOrder := fun a b => Nat.decLe b.id a.id

instance : IsTotal Post idDescOrder := ⟨fun a b => Nat.le_total b.id a.id⟩

instance : IsTrans Post idDescOrder := ⟨fun _ _ _ h1 h2 => Nat.le_trans h2 h1⟩

/-- The store ordered by id descending (`order_by(desc(Post.id))`). -/
def sortByIdDesc (l : List Post) : List Post := List.insertionSort idDescOrder l

/-- total_pages = ceil(total_count / limit) when total_count > 0, else 1. -/
def totalPages (total_count limit : Nat) : Nat :=
  if 0 < total_count then (total_count + limit - 1) / limit else 1

/-- The tuple returned by `get_posts_paginated`. -/
structure PaginatedResult where
  items : List Post
  total_count : Nat
  total_pages : Nat
  current_page : Nat
  has_next_page : Bool
  has_previous_page : Bool
deriving DecidableEq

/-- `PostService.get_posts_paginated`: validate page/limit, count the rows,
compute the metadata, and return the id-descending slice
`[offset, offset + limit)` with `offset = (page - 1) * limit`. -/
def get_posts_paginated (store : List Post) (page limit : Int) :
    Except String PaginatedResult :=
  if page < 1 then .error "page must be >= 1"
  else if limit < 1 then .error "limit must be >= 1"
  else if 100 < limit then .error "limit cannot exceed 100"
  else
    let total_count := store.length
    let L := limit.toNat
    let P := page.toNat
    let tp := totalPages total_count L
    let offset := (P - 1) * L
    let items := ((sortByIdDesc store).drop offset).take L
    .ok ⟨items, total_count, tp, P, decide (P < tp), decide (1 < P)⟩

/-! Helper lemmas about the validators. -/

theorem pyStrip_empty : pyStrip "" = "" := rfl

theorem one_le_length_of_pyStrip_ne (s : String) (h : pyStrip s ≠ "") :
    1 ≤ s.length := by
  rcases s with ⟨l⟩
  cases l with
  | nil => exact absurd rfl h
  | cons c cs => simp [String.length]

theorem validateCreateField_blank (maxLen : Nat) (s : String)
    (h : pyStrip s = "") : validateCreateField maxLen s = none := by
  simp [validateCreateField, h]

theorem validateCreateField_ok (maxLen : Nat) (s : String)
    (hmax : s.length ≤ maxLen) (hb : pyStrip s ≠ "") :
    validateCreateField maxLen s = some (pyStrip s) := by
  have h1 := one_le_length_of_pyStrip_ne s hb
  unfold validateCreateField
  rw [if_neg (by omega), if_neg (by omega), if_neg hb]

theorem validateUpdateField_blank (maxLen : Nat) (s : String)
    (h : pyStrip s = "") : validateUpdateField maxLen (.str s) = none := by
  simp [validateUpdateField, h]

theorem validateUpdateField_ok (maxLen : Nat) (s : String)
    (hmax : s.length ≤ maxLen) (hb : pyStrip s ≠ "") :
    validateUpdateField maxLen (.str s) = some (.str (pyStrip s)) := by
  have h1 := one_le_length_of_pyStrip_ne s hb
  show (if s.length < 1 then none
      else if maxLen < s.length then none
      else if pyStrip s = "" then none
      else some (FieldInput.str (pyStrip s))) = some (FieldInput.str (pyStrip s))
  rw [if_neg (by omega), if_neg (by omega), if_neg hb]

theorem postUpdateSchema_fields (d v : UpdateData)
    (h : postUpdateSchema d = some v) :
    validateUpdateField 200 d.title = some v.title ∧
    validateUpdateField 10000 d.content = some v.content ∧
    validateUpdateField 100 d.author = some v.author := by
  cases h1 : validateUpdateField 200 d.title with
  | none => simp [postUpdateSchema, h1] at h
  | some t =>
    cases h2 : validateUpdateField 10000 d.content with
    | none => simp [postUpdateSchema, h1, h2] at h
    | some c =>
      cases h3 : validateUpdateField 100 d.author with
      | none => simp [postUpdateSchema, h1, h2, h3] at h
      | some a =>
        simp only [postUpdateSchema, h1, h2, h3, Option.some_bind] at h
        cases h
        exact ⟨rfl, rfl, rfl⟩

/-- A field of an update payload explicitly supplied as a string that is
empty or whitespace-only. -/
def blankSupplied (f : FieldInput) : Prop :=
  ∃ s, f = FieldInput.str s ∧ pyStrip s = ""

theorem postUpdateSchema_blank (d : UpdateData)
    (hblank : blankSupplied d.title ∨ blankSupplied d.content ∨
      blankSupplied d.author) :
    postUpdateSchema d = none := by
  rcases hblank with ⟨s, hs, hb⟩ | ⟨s, hs, hb⟩ | ⟨s, hs, hb⟩
  · simp [postUpdateSchema, hs, validateUpdateField_blank _ _ hb]
  · cases h1 : validateUpdateField 200 d.title <;>
      simp [postUpdateSchema, h1, hs, validateUpdateField_blank _ _ hb]
  · cases h1 : validateUpdateField 200 d.title <;>
      cases h2 : validateUpdateField 10000 d.content <;>
      simp [postUpdateSchema, h1, h2, hs, validateUpdateField_blank _ _ hb]

/-- The net effect of the dumped assignments on one ORM attribute. -/
def applyField (cur : Option String) (v : FieldInput) : Option String :=
  match v with
  | .unset => cur
  | .null => none
  | .str s => some s

theorem foldl_setAttr_dump (r : ORMPost) (d : UpdateData) :
    (modelDumpExcludeUnset d).foldl setAttr r =
      ⟨r.id, applyField r.title d.title, applyField r.content d.content,
        applyField r.author d.author, r.time_created⟩ := by
  rcases d with ⟨ft, fc, fa⟩
  cases ft <;> cases fc <;> cases fa <;> rfl

theorem commitRow_some (r : ORMPost) (q : Post) (h : commitRow r = some q) :
    r.title = some q.title ∧ r.content = some q.content ∧
    r.author = some q.author ∧ q.id = r.id ∧ q.time_created = r.time_created := by
  rcases r with ⟨i, t?, c?, a?, tc⟩
  cases t? with
  | none => simp [commitRow] at h
  | some t =>
    cases c? with
    | none => simp [commitRow] at h
    | some c =>
      cases a? with
      | none => simp [commitRow] at h
      | some a =>
        have hc : commitRow ⟨i, some t, some c, some a, tc⟩ =
            if pyStrip t = "" || pyStrip c = "" || pyStrip a = "" then none
            else some ⟨i, t, c, a, tc⟩ := rfl
        rw [hc] at h
        by_cases hb : (pyStrip t = "" || pyStrip c = "" || pyStrip a = "") = true
        · rw [if_pos hb] at h
          cases h
        · rw [if_neg hb] at h
          cases h
          exact ⟨rfl, rfl, rfl, rfl, rfl⟩

theorem map_replace_self (store : List Post) (post_id : Nat) (p : Post)
    (hids : (store.map Post.id).Nodup)
    (hfind : get_post_by_id store post_id = some p) :
    store.map (fun q => if q.id = post_id then p else q) = store := by
  have hmem : p ∈ store := List.mem_of_find?_eq_some hfind
  have hpid : p.id = post_id := by
    have := List.find?_some hfind
    simpa using this
  have : ∀ q ∈ store, (fun q => if q.id = post_id then p else q) q = id q := by
    intro q hq
    by_cases hcase : q.id = post_id
    · have : q = p :=
        List.inj_on_of_nodup_map hids hq hmem (by rw [hcase, hpid])
      simp [hcase, this]
    · simp [hcase]
  rw [List.map_congr_left this, List.map_id]

/-- Sample rows used to instantiate the theorems on concrete stores. -/
def post1 : Post := ⟨1, "first", "body one", "alice", 10⟩

def post2 : Post := ⟨2, "second", "body two", "bob", 20⟩

def post3 : Post := ⟨3, "third", "body three", "carol", 30⟩

def post4 : Post := ⟨4, "fourth", "body four", "dave", 40⟩

def post5 : Post := ⟨5, "fifth", "body five", "erin", 50⟩

def store5 : List Post := [post1, post2, post3, post4, post5]

/-- C1: for an existing post id, an update that explicitly supplies any of
title/content/author as an empty or whitespace-only string fails validation,
and the store (hence every field of the stored post) is unchanged. -/
theorem update_blank_supplied_field_fails_atomically
    (store : List Post) (post_id : Nat) (d : UpdateData) (p : Post)
    (hfind : get_post_by_id store post_id = some p)
    (hblank : blankSupplied d.title ∨ blankSupplied d.content ∨
      blankSupplied d.author) :
    update_post store post_id d = (store, UpdateResult.validationError) := by
  have hval := postUpdateSchema_blank d hblank
  simp [update_post, hfind, hval]

theorem update_blank_supplied_field_fails_atomically_witness :
    get_post_by_id store5 1 = some post1 ∧
    blankSupplied (FieldInput.str " ") ∧
    update_post store5 1 ⟨FieldInput.str " ", FieldInput.unset, FieldInput.unset⟩ =
      (store5, UpdateResult.validationError) :=
  ⟨by decide, ⟨" ", rfl, by decide⟩,
    update_blank_supplied_field_fails_atomically store5 1
      ⟨FieldInput.str " ", FieldInput.unset, FieldInput.unset⟩ post1
      (by decide) (Or.inl ⟨" ", rfl, by decide⟩)⟩

/-- C2: a successful update changes only the explicitly supplied fields:
omitted fields, the id and the timestamp keep their prior values, and an
update supplying no field at all returns the post unchanged and leaves the
store unchanged. -/
theorem update_frame_and_noop (store : List Post) (post_id : Nat)
    (d : UpdateData) (p q : Post) (st' : List Post)
    (hids : (store.map Post.id).Nodup)
    (hfind : get_post_by_id store post_id = some p)
    (hok : update_post store post_id d = (st', UpdateResult.ok q)) :
    q.id = p.id ∧ q.time_created = p.time_created ∧
    (d.title = FieldInput.unset → q.title = p.title) ∧
    (d.content = FieldInput.unset → q.content = p.content) ∧
    (d.author = FieldInput.unset → q.author = p.author) ∧
    (d = ⟨FieldInput.unset, FieldInput.unset, FieldInput.unset⟩ →
      q = p ∧ st' = store) := by
  cases hv : postUpdateSchema d with
  | none => simp [update_post, hfind, hv] at hok
  | some v =>
    obtain ⟨hv1, hv2, hv3⟩ := postUpdateSchema_fields d v hv
    obtain ⟨vt, vc, va⟩ := v
    cases hc : commitRow
        ((modelDumpExcludeUnset ⟨vt, vc, va⟩).foldl setAttr p.toORM) with
    | none => simp [update_post, hfind, hv, hc] at hok
    | some q' =>
      have hok' := hok
      simp only [update_post, hfind, hv, hc, Prod.mk.injEq] at hok'
      obtain ⟨hst, hq⟩ := hok'
      rw [foldl_setAttr_dump] at hc
      obtain ⟨hT, hC, hA, hid, htc⟩ := commitRow_some _ _ hc
      simp only [Post.toORM] at hT hC hA hid htc
      have hqq : q = q' := by
        cases hq
        rfl
      subst hqq
      refine ⟨hid, htc, ?_, ?_, ?_, ?_⟩
      · intro hd
        rw [hd] at hv1
        cases hv1
        simp [applyField] at hT
        exact hT.symm
      · intro hd
        rw [hd] at hv2
        cases hv2
        simp [applyField] at hC
        exact hC.symm
      · intro hd
        rw [hd] at hv3
        cases hv3
        simp [applyField] at hA
        exact hA.symm
      · intro hd
        subst hd
        cases hv1
        cases hv2
        cases hv3
        simp [applyField] at hT hC hA
        have hqp : q = p := by
          cases q
          cases p
          simp_all
        refine ⟨hqp, ?_⟩
        rw [← hst, hqp]
        exact map_replace_self store post_id p hids hfind

theorem update_frame_and_noop_witness :
    (store5.map Post.id).Nodup ∧
    get_post_by_id store5 2 = some post2 ∧
    update_post store5 2 ⟨FieldInput.unset, FieldInput.unset, FieldInput.unset⟩ =
      (store5, UpdateResult.ok post2) ∧
    post2.id = post2.id ∧ post2.time_created = post2.time_created ∧
    (FieldInput.unset = FieldInput.unset → post2.title = post2.title) :=
  ⟨by decide, by decide, by decide,
    (update_frame_and_noop store5 2
      ⟨FieldInput.unset, FieldInput.unset, FieldInput.unset⟩ post2 post2 store5
      (by decide) (by decide) (by decide)).1 ▸ ⟨rfl, rfl, fun _ => rfl⟩⟩

theorem postCreateSchema_blank (t c a : String)
    (h : pyStrip t = "" ∨ pyStrip c = "" ∨ pyStrip a = "") :
    postCreateSchema t c a = none := by
  rcases h with h | h | h
  · simp [postCreateSchema, validateCreateField_blank _ _ h]
  · cases h1 : validateCreateField 200 t <;>
      simp [postCreateSchema, h1, validateCreateField_blank _ _ h]
  · cases h1 : validateCreateField 200 t <;>
      cases h2 : validateCreateField 10000 c <;>
      simp [postCreateSchema, h1, h2, validateCreateField_blank _ _ h]

/-- C7: for any title/content/author within the 200/10000/100 length bounds
and non-blank after trimming, create succeeds and the stored row holds
exactly the trimmed values. -/
theorem create_valid_trims_and_inserts (store : List Post) (new_id : Nat)
    (now : Int) (t c a : String)
    (ht : t.length ≤ 200) (hc : c.length ≤ 10000) (ha : a.length ≤ 100)
    (ht' : pyStrip t ≠ "") (hc' : pyStrip c ≠ "") (ha' : pyStrip a ≠ "") :
    createNewPost store new_id now t c a =
      (store ++ [⟨new_id, pyStrip t, pyStrip c, pyStrip a, now⟩],
        some ⟨new_id, pyStrip t, pyStrip c, pyStrip a, now⟩) := by
  simp [createNewPost, postCreateSchema,
    validateCreateField_ok _ _ ht ht', validateCreateField_ok _ _ hc hc',
    validateCreateField_ok _ _ ha ha', create_post]

theorem create_valid_trims_and_inserts_witness :
    (" New Title ").length ≤ 200 ∧ pyStrip " New Title " ≠ "" ∧
    createNewPost store5 6 60 " New Title " "Some content" " alice" =
      (store5 ++ [⟨6, "New Title", "Some content", "alice", 60⟩],
        some ⟨6, "New Title", "Some content", "alice", 60⟩) :=
  ⟨by decide, by decide, by
    have h := create_valid_trims_and_inserts store5 6 60 " New Title "
      "Some content" " alice" (by decide) (by decide) (by decide)
      (by decide) (by decide) (by decide)
    rw [h]
    decide⟩

/-- C8: if any of the three fields is empty or whitespace-only, create fails
validation and no row is inserted: the store is returned unchanged. -/
theorem create_blank_field_rejected_no_insert (store : List Post)
    (new_id : Nat) (now : Int) (t c a : String)
    (h : pyStrip t = "" ∨ pyStrip c = "" ∨ pyStrip a = "") :
    createNewPost store new_id now t c a = (store, none) := by
  simp [createNewPost, postCreateSchema_blank t c a h]

theorem create_blank_field_rejected_no_insert_witness :
    pyStrip "   " = "" ∧
    createNewPost store5 6 60 "   " "some body" "an author" = (store5, none) :=
  ⟨by decide, create_blank_field_rejected_no_insert store5 6 60 "   "
    "some body" "an author" (Or.inl (by decide))⟩

/-- C9: update and delete on an id absent from the store both fail with a
NotFound error whose message contains the id, and leave the store
unchanged. -/
theorem update_delete_not_found (store : List Post) (post_id : Nat)
    (d : UpdateData) (h : ∀ p ∈ store, p.id ≠ post_id) :
    update_post store post_id d =
      (store, UpdateResult.notFound
        ("Post with id " ++ toString post_id ++ " not found")) ∧
    delete_post store post_id =
      (store, Except.error
        ("Post with id " ++ toString post_id ++ " not found")) ∧
    (toString post_id).data <:+:
      ("Post with id " ++ toString post_id ++ " not found").data := by
  have hfind : get_post_by_id store post_id = none := by
    rw [get_post_by_id, List.find?_eq_none]
    intro x hx
    simp [h x hx]
  refine ⟨by simp [update_post, hfind], by simp [delete_post, hfind], ?_⟩
  exact ⟨"Post with id ".data, " not found".data, by simp⟩

theorem update_delete_not_found_witness :
    (∀ p ∈ store5, p.id ≠ 99999) ∧
    (update_post store5 99999
        ⟨FieldInput.str "x", FieldInput.unset, FieldInput.unset⟩ =
      (store5, UpdateResult.notFound
        ("Post with id " ++ toString 99999 ++ " not found")) ∧
     delete_post store5 99999 =
      (store5, Except.error
        ("Post with id " ++ toString 99999 ++ " not found")) ∧
     (toString 99999).data <:+:
      ("Post with id " ++ toString 99999 ++ " not found").data) :=
  ⟨by decide, update_delete_not_found store5 99999
    ⟨FieldInput.str "x", FieldInput.unset, FieldInput.unset⟩ (by decide)⟩

/-- C10: for an existing post id, supplying a field explicitly as None is
not rejected by update validation: it passes PostUpdateSchema, survives
exclude_unset, and the setattr loop writes None into the stored field (the
commit then fails on the NOT NULL column, not on validation) — unlike the
empty string, which PostUpdateSchema rejects. -/
theorem update_none_passes_validation_sets_null (store : List Post)
    (post_id : Nat) (p : Post)
    (hfind : get_post_by_id store post_id = some p) :
    postUpdateSchema ⟨FieldInput.null, FieldInput.unset, FieldInput.unset⟩ =
      some ⟨FieldInput.null, FieldInput.unset, FieldInput.unset⟩ ∧
    postUpdateSchema ⟨FieldInput.unset, FieldInput.null, FieldInput.unset⟩ =
      some ⟨FieldInput.unset, FieldInput.null, FieldInput.unset⟩ ∧
    postUpdateSchema ⟨FieldInput.unset, FieldInput.unset, FieldInput.null⟩ =
      some ⟨FieldInput.unset, FieldInput.unset, FieldInput.null⟩ ∧
    modelDumpExcludeUnset ⟨FieldInput.null, FieldInput.unset, FieldInput.unset⟩ =
      [("title", none)] ∧
    modelDumpExcludeUnset ⟨FieldInput.unset, FieldInput.null, FieldInput.unset⟩ =
      [("content", none)] ∧
    modelDumpExcludeUnset ⟨FieldInput.unset, FieldInput.unset, FieldInput.null⟩ =
      [("author", none)] ∧
    [(("title" : String), (none : Option String))].foldl setAttr p.toORM =
      { p.toORM with title := none } ∧
    [(("content" : String), (none : Option String))].foldl setAttr p.toORM =
      { p.toORM with content := none } ∧
    [(("author" : String), (none : Option String))].foldl setAttr p.toORM =
      { p.toORM with author := none } ∧
    update_post store post_id
        ⟨FieldInput.null, FieldInput.unset, FieldInput.unset⟩ =
      (store, UpdateResult.storeError) ∧
    postUpdateSchema ⟨FieldInput.str "", FieldInput.unset, FieldInput.unset⟩ =
      none ∧
    postUpdateSchema ⟨FieldInput.unset, FieldInput.str "", FieldInput.unset⟩ =
      none ∧
    postUpdateSchema ⟨FieldInput.unset, FieldInput.unset, FieldInput.str ""⟩ =
      none := by
  refine ⟨by decide, by decide, by decide, by decide, by decide, by decide,
    rfl, rfl, rfl, ?_, by decide, by decide, by decide⟩
  simp [update_post, hfind, postUpdateSchema, validateUpdateField,
    modelDumpExcludeUnset, dumpField, setAttr, commitRow, Post.toORM]

theorem update_none_passes_validation_sets_null_witness :
    get_post_by_id store5 1 = some post1 ∧
    update_post store5 1 ⟨FieldInput.null, FieldInput.unset, FieldInput.unset⟩ =
      (store5, UpdateResult.storeError) :=
  ⟨by decide,
    (update_none_passes_validation_sets_null store5 1 post1
      (by decide)).2.2.2.2.2.2.2.2.2.1⟩

theorem take_add_split {α : Type} (l : List α) (m n : Nat) :
    l.take (m + n) = l.take m ++ (l.drop m).take n := by
  conv_lhs => rw [← List.take_append_drop m (l.take (m + n))]
  rw [List.take_take, Nat.min_eq_left (Nat.le_add_right m n), ← List.take_drop]

theorem join_page_chunks {α : Type} (l : List α) (L k : Nat) :
    ((List.range k).map fun i => (l.drop (i * L)).take L).flatten =
      l.take (k * L) := by
  induction k with
  | zero => simp
  | succ k ih =>
    rw [List.range_succ, List.map_append, List.flatten_append, ih]
    simp only [List.map_cons, List.map_nil, List.flatten_cons,
      List.flatten_nil, List.append_nil]
    rw [← take_add_split, ← Nat.succ_mul]

theorem totalPages_mul_ge (n L : Nat) (hL : 0 < L) : n ≤ totalPages n L * L := by
  unfold totalPages
  by_cases hn : 0 < n
  · rw [if_pos hn]
    have h := Nat.lt_div_mul_add (a := n + L - 1) hL
    generalize hq : (n + L - 1) / L * L = m at h ⊢
    omega
  · rw [if_neg hn]
    omega

theorem totalPages_pos (n L : Nat) (hL : 0 < L) : 0 < totalPages n L := by
  unfold totalPages
  by_cases hn : 0 < n
  · rw [if_pos hn]
    exact Nat.div_pos (by omega) hL
  · rw [if_neg hn]
    omega

theorem get_posts_paginated_ok (store : List Post) (page limit : Int)
    (hp : 1 ≤ page) (hl : 1 ≤ limit) (hl2 : limit ≤ 100) :
    get_posts_paginated store page limit =
      Except.ok ⟨((sortByIdDesc store).drop
          ((page.toNat - 1) * limit.toNat)).take limit.toNat,
        store.length, totalPages store.length limit.toNat, page.toNat,
        decide (page.toNat < totalPages store.length limit.toNat),
        decide (1 < page.toNat)⟩ := by
  unfold get_posts_paginated
  rw [if_neg (by omega), if_neg (by omega), if_neg (by omega)]

/-- C3: for a valid page and limit, the returned items are exactly the rows
at ranks [(page-1)*limit, page*limit) of the store ordered by id descending,
and the concatenation of the items of pages 1..total_pages is that whole
ordering — a permutation of the store, so every row appears exactly once. -/
theorem paginate_items_desc_slice_and_cover (store : List Post)
    (page limit : Int) (hp : 1 ≤ page) (hl : 1 ≤ limit) (hl2 : limit ≤ 100) :
    ∃ r, get_posts_paginated store page limit = Except.ok r ∧
      r.items = ((sortByIdDesc store).drop
        ((page.toNat - 1) * limit.toNat)).take limit.toNat ∧
      List.Sorted idDescOrder (sortByIdDesc store) ∧
      List.Perm (sortByIdDesc store) store ∧
      ((List.range r.total_pages).map fun i =>
        ((sortByIdDesc store).drop (i * limit.toNat)).take limit.toNat).flatten =
        sortByIdDesc store := by
  refine ⟨_, get_posts_paginated_ok store page limit hp hl hl2, rfl,
    List.sorted_insertionSort idDescOrder store,
    List.perm_insertionSort idDescOrder store, ?_⟩
  show ((List.range (totalPages store.length limit.toNat)).map fun i =>
    ((sortByIdDesc store).drop (i * limit.toNat)).take limit.toNat).flatten = _
  rw [join_page_chunks]
  apply List.take_of_length_le
  have hlen : (sortByIdDesc store).length = store.length :=
    List.length_insertionSort idDescOrder store
  rw [hlen]
  exact totalPages_mul_ge store.length limit.toNat (by omega)

theorem paginate_items_desc_slice_and_cover_witness :
    (1 : Int) ≤ 2 ∧ (1 : Int) ≤ 3 ∧ (3 : Int) ≤ 100 ∧
    (∃ r, get_posts_paginated store5 2 3 = Except.ok r ∧
      r.items = ((sortByIdDesc store5).drop
        (((2 : Int).toNat - 1) * (3 : Int).toNat)).take (3 : Int).toNat ∧
      List.Sorted idDescOrder (sortByIdDesc store5) ∧
      List.Perm (sortByIdDesc store5) store5 ∧
      ((List.range r.total_pages).map fun i =>
        ((sortByIdDesc store5).drop (i * (3 : Int).toNat)).take
          (3 : Int).toNat).flatten = sortByIdDesc store5) :=
  ⟨by decide, by decide, by decide,
    paginate_items_desc_slice_and_cover store5 2 3 (by decide) (by decide)
      (by decide)⟩

/-- C4: for a valid page and limit, total_count is the number of rows,
total_pages is the ceiling of total_count / limit (and exactly 1 for an
empty store), has_next_page is page < total_pages and has_previous_page is
page > 1. -/
theorem paginate_metadata_correct (store : List Post) (page limit : Int)
    (hp : 1 ≤ page) (hl : 1 ≤ limit) (hl2 : limit ≤ 100) :
    ∃ r, get_posts_paginated store page limit = Except.ok r ∧
      r.total_count = store.length ∧
      r.total_pages =
        (if 0 < store.length then store.length ⌈/⌉ limit.toNat else 1) ∧
      r.current_page = page.toNat ∧
      r.has_next_page = decide (page < (r.total_pages : Int)) ∧
      r.has_previous_page = decide (1 < page) := by
  refine ⟨_, get_posts_paginated_ok store page limit hp hl hl2, rfl, ?_, rfl,
    ?_, ?_⟩
  · show totalPages store.length limit.toNat = _
    simp [totalPages, Nat.ceilDiv_eq_add_pred_div]
  · rw [decide_eq_decide]
    show page.toNat < totalPages store.length limit.toNat ↔
      page < ((totalPages store.length limit.toNat : Nat) : Int)
    omega
  · rw [decide_eq_decide]
    omega

theorem paginate_metadata_correct_witness :
    (1 : Int) ≤ 1 ∧ (1 : Int) ≤ 3 ∧ (3 : Int) ≤ 100 ∧
    (∃ r, get_posts_paginated store5 1 3 = Except.ok r ∧
      r.total_count = store5.length ∧
      r.total_pages =
        (if 0 < store5.length then store5.length ⌈/⌉ (3 : Int).toNat else 1) ∧
      r.current_page = (1 : Int).toNat ∧
      r.has_next_page = decide ((1 : Int) < (r.total_pages : Int)) ∧
      r.has_previous_page = decide ((1 : Int) < 1)) :=
  ⟨by decide, by decide, by decide,
    paginate_metadata_correct store5 1 3 (by decide) (by decide) (by decide)⟩

/-- C5: pagination fails with an error exactly when page < 1, limit < 1 or
limit > 100, and the message is the literal phrase of the violated rule:
the page rule when page < 1, the limit lower bound when page is fine and
limit < 1, and the limit upper bound when page is fine and limit > 100. -/
theorem paginate_invalid_args_iff (store : List Post) (page limit : Int) :
    ((∃ msg, get_posts_paginated store page limit = Except.error msg) ↔
      (page < 1 ∨ limit < 1 ∨ 100 < limit)) ∧
    (page < 1 → get_posts_paginated store page limit =
      Except.error "page must be >= 1") ∧
    (1 ≤ page → limit < 1 → get_posts_paginated store page limit =
      Except.error "limit must be >= 1") ∧
    (1 ≤ page → 100 < limit → get_posts_paginated store page limit =
      Except.error "limit cannot exceed 100") := by
  have herr1 : page < 1 → get_posts_paginated store page limit =
      Except.error "page must be >= 1" := by
    intro hp
    unfold get_posts_paginated
    rw [if_pos hp]
  have herr2 : 1 ≤ page → limit < 1 → get_posts_paginated store page limit =
      Except.error "limit must be >= 1" := by
    intro hp hl
    unfold get_posts_paginated
    rw [if_neg (by omega), if_pos hl]
  have herr3 : 1 ≤ page → 100 < limit → get_posts_paginated store page limit =
      Except.error "limit cannot exceed 100" := by
    intro hp hl
    unfold get_posts_paginated
    rw [if_neg (by omega), if_neg (by omega), if_pos hl]
  refine ⟨⟨?_, ?_⟩, herr1, herr2, herr3⟩
  · rintro ⟨msg, hmsg⟩
    by_contra hcon
    push_neg at hcon
    obtain ⟨h1, h2, h3⟩ := hcon
    rw [get_posts_paginated_ok store page limit h1 h2 h3] at hmsg
    cases hmsg
  · intro h
    rcases Int.lt_or_le page 1 with hp | hp
    · exact ⟨_, herr1 hp⟩
    · rcases Int.lt_or_le limit 1 with hl | hl
      · exact ⟨_, herr2 hp hl⟩
      · have hl2 : 100 < limit := by
          rcases h with h | h | h <;> omega
        exact ⟨_, herr3 hp hl2⟩

theorem paginate_invalid_args_iff_witness :
    ((∃ msg, get_posts_paginated store5 0 10 = Except.error msg) ↔
      ((0 : Int) < 1 ∨ (10 : Int) < 1 ∨ (100 : Int) < 10)) ∧
    ((0 : Int) < 1 → get_posts_paginated store5 0 10 =
      Except.error "page must be >= 1") ∧
    ((1 : Int) ≤ 0 → (10 : Int) < 1 → get_posts_paginated store5 0 10 =
      Except.error "limit must be >= 1") ∧
    ((1 : Int) ≤ 0 → (100 : Int) < 10 → get_posts_paginated store5 0 10 =
      Except.error "limit cannot exceed 100") :=
  paginate_invalid_args_iff store5 0 10

/-- C6: a valid page and limit with page beyond total_pages is not an error
and is not clamped: the call succeeds with an empty item list and the same
metadata formulas as for in-range pages (total count, total pages,
has_next_page = false, has_previous_page = true). -/
theorem paginate_page_beyond_total_pages (store : List Post)
    (page limit : Int) (hp : 1 ≤ page) (hl : 1 ≤ limit) (hl2 : limit ≤ 100)
    (hbig : (totalPages store.length limit.toNat : Int) < page) :
    get_posts_paginated store page limit =
      Except.ok ⟨[], store.length, totalPages store.length limit.toNat,
        page.toNat, false, true⟩ := by
  rw [get_posts_paginated_ok store page limit hp hl hl2]
  have hoff : (sortByIdDesc store).length ≤ (page.toNat - 1) * limit.toNat := by
    have hlen : (sortByIdDesc store).length = store.length :=
      List.length_insertionSort idDescOrder store
    rw [hlen]
    have h1 : totalPages store.length limit.toNat ≤ page.toNat - 1 := by omega
    calc store.length
        ≤ totalPages store.length limit.toNat * limit.toNat :=
          totalPages_mul_ge _ _ (by omega)
      _ ≤ (page.toNat - 1) * limit.toNat := Nat.mul_le_mul_right _ h1
  have hitems : ((sortByIdDesc store).drop
      ((page.toNat - 1) * limit.toNat)).take limit.toNat = ([] : List Post) := by
    rw [List.drop_eq_nil_of_le hoff, List.take_nil]
  have h1 : ¬ (page.toNat < totalPages store.length limit.toNat) := by omega
  have h2 : 1 < page.toNat := by
    have := totalPages_pos store.length limit.toNat (by omega)
    omega
  rw [hitems]
  simp [h1, h2]

theorem paginate_page_beyond_total_pages_witness :
    (1 : Int) ≤ 5 ∧ (1 : Int) ≤ 3 ∧ (3 : Int) ≤ 100 ∧
    ((totalPages store5.length (3 : Int).toNat : Nat) : Int) < 5 ∧
    get_posts_paginated store5 5 3 =
      Except.ok ⟨[], store5.length, totalPages store5.length (3 : Int).toNat,
        (5 : Int).toNat, false, true⟩ :=
  ⟨by decide, by decide, by decide, by decide,
    paginate_page_beyond_total_pages store5 5 3 (by decide) (by decide)
      (by decide) (by decide)⟩
